import Mathlib

/-!
Verification of the valentine-iot server core (src/server/app.py and
src/server/database.py) against its specification.

The server keeps a global Python dict `connected_clients` mapping a
socket id (`request.sid`) to a device name.  A Python dict preserves
insertion order: assigning to an existing key updates the value in
place, assigning to a fresh key appends, and `del` removes the entry.
We embed it as an insertion-ordered association list from socket ids
to device names.

The persistence layer (SQLAlchemy over SQLite) is embedded as a store
holding the `messages` rows, the `devices` rows and the next
autoincrement id for `messages`.  A database failure in the handlers
(`except ... session.rollback()`) is embedded by a boolean `dbOk`
parameter: when it is `false` the transaction rolls back and the store
is unchanged.  Wall-clock time (`datetime.utcnow()`) is embedded as a
`now : Nat` parameter.

Outbound socket events (`emit` / `socketio.emit(..., room=sid)`) are
collected in a list, each tagged with the socket id it is emitted to.
-/

abbrev Sid := Nat

abbrev DeviceName := String

/-- The in-memory connection registry: the Python dict
`connected_clients` as an insertion-ordered association list from
socket id to device name. -/
abbrev Registry := List (Sid × DeviceName)

/-- Python dict assignment `connected_clients[sid] = name`: if the key
is present its value is updated in place (insertion position kept),
otherwise the pair is appended at the end. -/
def dictInsert (m : Registry) (k : Sid) (v : DeviceName) : Registry :=
  if m.any (fun p => p.1 == k) then
    m.map (fun p => if p.1 == k then (k, v) else p)
  else
    m ++ [(k, v)]

/-- A row of the `messages` table (database.py, class Message). -/
structure Message where
  id : Nat
  sender : String
  recipient : String
  emoji : String
  text : String
  timestamp : Nat
deriving DecidableEq, Repr

/-- A row of the `devices` table (database.py, class Device); `name`
is unique, `last_seen` is a UTC instant. -/
structure DeviceRow where
  name : String
  last_seen : Nat
deriving DecidableEq, Repr

/-- The persistent store: the two tables plus the next autoincrement
primary key for `messages` (SQLite assigns ids 1, 2, ...). -/
structure Store where
  messages : List Message
  devices : List DeviceRow
  nextId : Nat
deriving DecidableEq, Repr

/-- The empty store of a fresh database file. -/
def emptyStore : Store := { messages := [], devices := [], nextId := 1 }

/-- An outbound socket event, tagged with the socket id (room) it is
emitted to. -/
inductive Event where
  | receive_emoji (room : Sid) (sender recipient emoji text : String)
      (message_id : Option Nat)
  | emoji_sent (room : Sid) (status : String) (recipient : String)
      (message_id : Option Nat)
  | registered (room : Sid) (device : String) (status : String)
deriving DecidableEq, Repr

/-- The payload of an inbound `send_emoji` event (`data.get` fields;
`text` defaults to the empty string). -/
structure SendData where
  sender : String
  recipient : String
  emoji : String
  text : String
deriving DecidableEq, Repr

/-- app.py `handle_disconnect`: `if request.sid in connected_clients:
del connected_clients[request.sid]` — the removal is guarded by a
membership check. -/
def handle_disconnect (sid : Sid) (clients : Registry) : Registry :=
  if clients.any (fun p => p.1 == sid) then
    clients.filter (fun p => !(p.1 == sid))
  else
    clients

/-- app.py `handle_register`, database part: upsert of the Device row
(`session.query(Device).filter_by(name=device).first()`; update
`last_seen` if found, else add a new row). -/
def touch_device (store : Store) (name : DeviceName) (now : Nat) : Store :=
  if store.devices.any (fun d => d.name == name) then
    { store with
        devices := store.devices.map (fun d =>
          if d.name == name then { d with last_seen := now } else d) }
  else
    { store with devices := store.devices ++ [{ name := name, last_seen := now }] }

/-- app.py `handle_register`: records the registration in
`connected_clients`, then tries the Device upsert (rolled back and the
store left unchanged when `dbOk` is false), and finally emits the
`registered` acknowledgment to the registering connection — the emit
sits after the try/except/finally, so it happens in both cases. -/
def handle_register (sid : Sid) (clients : Registry) (dbOk : Bool) (now : Nat)
    (store : Store) (name : DeviceName) : Registry × Store × List Event :=
  let clients := dictInsert clients sid name
  let store := if dbOk then touch_device store name now else store
  (clients, store, [Event.registered sid name "success"])

/-- app.py `handle_send_emoji`, persistence step: on success the
Message row is committed with the autoincrement id and `message_id`
is that id; on failure the session is rolled back (store unchanged)
and `message_id = None`. -/
def persistMessage (store : Store) (dbOk : Bool) (now : Nat) (data : SendData) :
    Store × Option Nat :=
  if dbOk then
    ({ store with
        messages := store.messages ++
          [{ id := store.nextId, sender := data.sender,
             recipient := data.recipient, emoji := data.emoji,
             text := data.text, timestamp := now }],
        nextId := store.nextId + 1 },
     some store.nextId)
  else
    (store, none)

/-- app.py `handle_send_emoji`, recipient lookup: the `for sid,
device_name in connected_clients.items()` loop with `break` on the
first entry whose device name equals the recipient. -/
def lookupRecipient (clients : Registry) (recipient : DeviceName) : Option Sid :=
  (clients.find? (fun p => p.2 == recipient)).map (fun p => p.1)

/-- app.py `handle_send_emoji`: persist (with rollback on failure),
then resolve the recipient in `connected_clients`; if a socket id is
found, emit `receive_emoji` to it and an `emoji_sent` acknowledgment
with status delivered to the sender, else only an `emoji_sent`
acknowledgment with status recipient_offline.  Returns the new store
and the emitted events. -/
def handle_send_emoji (sid : Sid) (clients : Registry) (dbOk : Bool) (now : Nat)
    (store : Store) (data : SendData) : Store × List Event :=
  let pr := persistMessage store dbOk now data
  match lookupRecipient clients data.recipient with
  | some rsid =>
      (pr.1,
       [Event.receive_emoji rsid data.sender data.recipient data.emoji data.text pr.2,
        Event.emoji_sent sid "delivered" data.recipient pr.2])
  | none =>
      (pr.1, [Event.emoji_sent sid "recipient_offline" data.recipient pr.2])

/-- The registry-mutating inbound events: `register` and
`disconnect`. -/
inductive RegEvent where
  | register (sid : Sid) (name : DeviceName)
  | disconnect (sid : Sid)
deriving DecidableEq, Repr

/-- The effect of one inbound event on `connected_clients`:
`handle_register` performs `connected_clients[request.sid] = device`
(dictInsert), `handle_disconnect` the guarded deletion. -/
def applyEvent (clients : Registry) : RegEvent → Registry
  | RegEvent.register sid name => dictInsert clients sid name
  | RegEvent.disconnect sid => handle_disconnect sid clients

/-- The registry after a sequence of register/disconnect events,
starting from the empty dict of server start-up. -/
def applyEvents (es : List RegEvent) : Registry :=
  es.foldl applyEvent []

/-- The status and message id of the first `emoji_sent`
acknowledgment among the emitted events. -/
def ackInfo : Event → Option (String × Option Nat)
  | Event.emoji_sent _ status _ mid => some (status, mid)
  | _ => none

/-- The status of the acknowledgment sent back to the sender. -/
def getAckStatus (es : List Event) : Option String :=
  ((es.filterMap ackInfo).head?).map (fun q => q.1)

/-- The message id carried by the acknowledgment sent back to the
sender. -/
def getAckId (es : List Event) : Option (Option Nat) :=
  ((es.filterMap ackInfo).head?).map (fun q => q.2)

/-- The `last_seen` column of the Device row with the given name. -/
def deviceLastSeen (store : Store) (name : DeviceName) : Option Nat :=
  (store.devices.find? (fun d => d.name == name)).map DeviceRow.last_seen

/-- The socket ids (dict keys) of the registry, in insertion order. -/
def keys (m : Registry) : List Sid := m.map (fun p => p.1)

/-- Sample `send_emoji` payload used in concrete witnesses. -/
def d0 : SendData :=
  { sender := "chile", recipient := "miami", emoji := "❤️", text := "" }

/-- Sample `send_emoji` payload addressed to device "A". -/
def dA : SendData :=
  { sender := "chile", recipient := "A", emoji := "❤️", text := "" }

/-! ## Helper lemmas -/

theorem lookupRecipient_none_iff (clients : Registry) (r : DeviceName) :
    lookupRecipient clients r = none ↔ clients.any (fun p => p.2 == r) = false := by
  simp [lookupRecipient, List.find?_eq_none, List.any_eq_false]

theorem lookupRecipient_some_any (clients : Registry) (r : DeviceName) (rsid : Sid)
    (h : lookupRecipient clients r = some rsid) :
    clients.any (fun p => p.2 == r) = true := by
  cases hq : clients.any (fun p => p.2 == r) with
  | true => rfl
  | false =>
      rw [(lookupRecipient_none_iff clients r).mpr hq] at h
      exact absurd h (by simp)

theorem keys_dictInsert (m : Registry) (k : Sid) (v : DeviceName)
    (h : (keys m).Nodup) : (keys (dictInsert m k v)).Nodup := by
  unfold dictInsert
  by_cases hk : m.any (fun p => p.1 == k) = true
  · rw [if_pos hk]
    have hkeys : keys (m.map (fun p => if p.1 == k then (k, v) else p)) = keys m := by
      unfold keys
      rw [List.map_map]
      apply List.map_congr_left
      intro p _
      by_cases hp : (p.1 == k) = true
      · simp only [Function.comp, hp, if_pos]
        exact (beq_iff_eq.mp hp).symm
      · simp [Function.comp, hp]
    rw [hkeys]
    exact h
  · rw [if_neg hk]
    have hnot : k ∉ keys m := by
      intro hmem
      rcases List.mem_map.mp hmem with ⟨p, hpm, hpk⟩
      exact hk (List.any_eq_true.mpr ⟨p, hpm, by simp [hpk]⟩)
    unfold keys
    rw [List.map_append, List.nodup_append]
    refine ⟨h, by simp, ?_⟩
    intro a ha hb
    simp only [List.map_cons, List.map_nil, List.mem_singleton] at hb
    subst hb
    exact hnot ha

theorem keys_handle_disconnect_sublist (sid : Sid) (m : Registry) :
    (keys (handle_disconnect sid m)).Sublist (keys m) := by
  unfold handle_disconnect
  by_cases h : m.any (fun p => p.1 == sid) = true
  · rw [if_pos h]
    exact List.Sublist.map _ (List.filter_sublist m)
  · rw [if_neg h]

theorem keys_nodup_applyEvent (m : Registry) (e : RegEvent) (h : (keys m).Nodup) :
    (keys (applyEvent m e)).Nodup := by
  cases e with
  | register sid name => exact keys_dictInsert m sid name h
  | disconnect sid =>
      exact List.Nodup.sublist (keys_handle_disconnect_sublist sid m) h

theorem keys_nodup_foldl (es : List RegEvent) :
    ∀ m : Registry, (keys m).Nodup → (keys (es.foldl applyEvent m)).Nodup := by
  induction es with
  | nil => intro m h; simpa using h
  | cons e es ih =>
      intro m h
      rw [List.foldl_cons]
      exact ih _ (keys_nodup_applyEvent m e h)

/-! ## Claims -/

/-- Claim C1 counterexample: the claim states that after any sequence of
register/disconnect events at most one socket id is associated with a
given device name.  But `connected_clients` is keyed by socket id, so
registering the same name "A" on the two distinct sockets 0 and 1
leaves both entries in the registry: two socket ids are associated
with "A" at once. -/
theorem C1_counterexample :
    ¬ (((applyEvents [RegEvent.register 0 "A", RegEvent.register 1 "A"]).filter
          (fun p => p.2 == "A")).length ≤ 1) := by
  decide

/-- Claim C1 (amended): for every sequence of register and disconnect
events, at most one device name is associated with any given socket
id — the registry is a dict keyed by socket id, whose keys stay
duplicate-free; several socket ids may simultaneously carry the same
device name. -/
theorem C1_registry_key_unique (es : List RegEvent) (sid : Sid) :
    ((applyEvents es).filter (fun p => p.1 == sid)).length ≤ 1 := by
  have hnd : (keys (applyEvents es)).Nodup := by
    apply keys_nodup_foldl
    simp [keys]
  have hcount : ((applyEvents es).filter (fun p => p.1 == sid)).length
      = List.count sid (keys (applyEvents es)) := by
    rw [← List.countP_eq_length_filter, List.count_eq_countP]
    unfold keys
    rw [List.countP_map]
    rfl
  rw [hcount]
  exact List.nodup_iff_count_le_one.mp hnd sid

/-- Claim C5: last-register-wins across a stale disconnect — register
name n on connection c1, then on a distinct connection c2, then let c1
disconnect: the registry still resolves n to c2; the stale
connection's disconnect does not evict the newer entry. -/
theorem C5_last_register_wins (c1 c2 : Sid) (n : DeviceName) (h : c1 ≠ c2) :
    lookupRecipient
      (applyEvents [RegEvent.register c1 n, RegEvent.register c2 n,
        RegEvent.disconnect c1]) n = some c2 := by
  have h12 : (c1 == c2) = false := by simpa using h
  have h21 : (c2 == c1) = false := by simpa using Ne.symm h
  simp [applyEvents, applyEvent, dictInsert, handle_disconnect, lookupRecipient,
    h12, h21, List.filter, List.find?]

/-- C5 witness: the scenario at connections 0 and 1 with device
name "A". -/
theorem C5_witness :
    lookupRecipient
      (applyEvents [RegEvent.register 0 "A", RegEvent.register 1 "A",
        RegEvent.disconnect 0]) "A" = some 1 :=
  C5_last_register_wins 0 1 "A" (by decide)

/-- Claim C10: a disconnect for a socket id absent from the registry
(never registered, or already removed) leaves the registry unchanged;
the deletion is guarded by the membership check
`if request.sid in connected_clients`. -/
theorem C10_disconnect_absent_noop (sid : Sid) (clients : Registry)
    (h : clients.all (fun p => !(p.1 == sid)) = true) :
    handle_disconnect sid clients = clients := by
  have hany : clients.any (fun p => p.1 == sid) = false := by
    rw [List.any_eq_false]
    intro p hp
    have hb := List.all_eq_true.mp h p hp
    simp only [Bool.not_eq_true'] at hb
    simp [hb]
  simp [handle_disconnect, hany]

/-- C10 witness: disconnecting socket 0 while only socket 1 is
registered leaves the registry untouched. -/
theorem C10_witness :
    (([(1, "A")] : Registry).all (fun p => !(p.1 == 0)) = true)
    ∧ handle_disconnect 0 [(1, "A")] = [(1, "A")] :=
  ⟨by decide, C10_disconnect_absent_noop 0 [(1, "A")] (by decide)⟩

/-- Claim C2: `handle_send_emoji` persists first — the resulting store
is exactly the persistence step's store, independent of the registry —
and only then resolves the recipient; the acknowledgment has status
delivered exactly when some live registry entry carries the
recipient's name, and otherwise the handler emits the single
recipient_offline acknowledgment, with no retry and no queuing. -/
theorem C2_persist_first_ack_iff (sid : Sid) (clients : Registry) (store : Store)
    (dbOk : Bool) (now : Nat) (data : SendData) :
    (handle_send_emoji sid clients dbOk now store data).1
      = (persistMessage store dbOk now data).1
    ∧ (getAckStatus (handle_send_emoji sid clients dbOk now store data).2
          = some "delivered"
        ↔ clients.any (fun p => p.2 == data.recipient) = true)
    ∧ (clients.any (fun p => p.2 == data.recipient) = false →
        (handle_send_emoji sid clients dbOk now store data).2
          = [Event.emoji_sent sid "recipient_offline" data.recipient
              (persistMessage store dbOk now data).2]) := by
  refine ⟨?_, ?_, ?_⟩
  · cases hf : lookupRecipient clients data.recipient <;>
      simp [handle_send_emoji, hf]
  · cases hf : lookupRecipient clients data.recipient with
    | none =>
        have hany := (lookupRecipient_none_iff clients data.recipient).mp hf
        simp [handle_send_emoji, hf, getAckStatus, ackInfo, hany]
    | some rsid =>
        have hany := lookupRecipient_some_any clients data.recipient rsid hf
        simp [handle_send_emoji, hf, getAckStatus, ackInfo, hany]
  · intro hany
    have hf : lookupRecipient clients data.recipient = none :=
      (lookupRecipient_none_iff clients data.recipient).mpr hany
    simp [handle_send_emoji, hf]

/-- C2 witness: sending to "miami" from socket 0 while the registry is
empty yields the single recipient_offline acknowledgment. -/
theorem C2_witness :
    (handle_send_emoji 0 [] true 5 emptyStore d0).2
      = [Event.emoji_sent 0 "recipient_offline" d0.recipient
          (persistMessage emptyStore true 5 d0).2] :=
  (C2_persist_first_ack_iff 0 [] emptyStore true 5 d0).2.2 rfl

/-- Claim C3 counterexample: the claim says a store write failure is
surfaced as a distinguishable PersistenceFailed outcome in the
acknowledgment.  On a concrete failing write with "miami" online, the
acknowledgment status is the ordinary "delivered" — no status other
than delivered/recipient_offline is ever emitted. -/
theorem C3_counterexample :
    ¬ (getAckStatus (handle_send_emoji 0 [(1, "miami")] false 5 emptyStore d0).2
          ≠ some "delivered"
        ∧ getAckStatus (handle_send_emoji 0 [(1, "miami")] false 5 emptyStore d0).2
          ≠ some "recipient_offline") := by
  decide

/-- Claim C3 (amended): when the store write fails the routing attempt
is not aborted — a live recipient still gets the full `receive_emoji`
event — and the failure is surfaced in the acknowledgment through a
null message id (a successful write always carries the assigned id),
while the status field keeps its ordinary delivered/recipient_offline
value. -/
theorem C3_persist_failure_routing (sid : Sid) (clients : Registry) (store : Store)
    (now : Nat) (data : SendData) :
    getAckId (handle_send_emoji sid clients false now store data).2 = some none
    ∧ (∀ rsid, lookupRecipient clients data.recipient = some rsid →
        (handle_send_emoji sid clients false now store data).2
          = [Event.receive_emoji rsid data.sender data.recipient data.emoji
              data.text none,
             Event.emoji_sent sid "delivered" data.recipient none])
    ∧ getAckId (handle_send_emoji sid clients true now store data).2
      = some (some store.nextId) := by
  refine ⟨?_, ?_, ?_⟩
  · cases hf : lookupRecipient clients data.recipient <;>
      simp [handle_send_emoji, hf, getAckId, ackInfo, persistMessage]
  · intro rsid hf
    simp [handle_send_emoji, hf, persistMessage]
  · cases hf : lookupRecipient clients data.recipient <;>
      simp [handle_send_emoji, hf, getAckId, ackInfo, persistMessage]

/-- C3 witness: with "miami" live on socket 1 and a failing write, the
receive event is still emitted and both events carry a null id. -/
theorem C3_witness :
    (handle_send_emoji 0 [(1, "miami")] false 5 emptyStore d0).2
      = [Event.receive_emoji 1 d0.sender d0.recipient d0.emoji d0.text none,
         Event.emoji_sent 0 "delivered" d0.recipient none] :=
  (C3_persist_failure_routing 0 [(1, "miami")] emptyStore 5 d0).2.1 1 rfl

/-- Claim C4 counterexample: the claim says a send_emoji from a
connection that never registered is rejected with an "unregistered"
acknowledgment.  Socket 7 is absent from the (empty) registry, yet its
send is processed normally: the acknowledgment status is
"recipient_offline", not "unregistered". -/
theorem C4_counterexample :
    getAckStatus (handle_send_emoji 7 [] true 5 emptyStore d0).2
      = some "recipient_offline"
    ∧ getAckStatus (handle_send_emoji 7 [] true 5 emptyStore d0).2
      ≠ some "unregistered" := by
  decide

/-- Claim C4 (amended): a send_emoji from an unregistered connection
is not rejected — the handler never inspects the sender's
registration: the persistence attempt is performed exactly as for a
registered sender, and the acknowledgment carries the ordinary
delivered/recipient_offline status, never an "unregistered" one. -/
theorem C4_unregistered_send_processed (sid : Sid) (clients : Registry)
    (store : Store) (now : Nat) (data : SendData)
    (h : clients.all (fun p => !(p.1 == sid)) = true) :
    (handle_send_emoji sid clients true now store data).1.messages
      = store.messages ++
        [{ id := store.nextId, sender := data.sender, recipient := data.recipient,
           emoji := data.emoji, text := data.text, timestamp := now }]
    ∧ (getAckStatus (handle_send_emoji sid clients true now store data).2
          = some "delivered"
        ∨ getAckStatus (handle_send_emoji sid clients true now store data).2
          = some "recipient_offline")
    ∧ getAckStatus (handle_send_emoji sid clients true now store data).2
      ≠ some "unregistered" := by
  refine ⟨?_, ?_, ?_⟩
  · cases hf : lookupRecipient clients data.recipient <;>
      simp [handle_send_emoji, hf, persistMessage]
  · cases hf : lookupRecipient clients data.recipient
    · right; simp [handle_send_emoji, hf, getAckStatus, ackInfo]
    · left; simp [handle_send_emoji, hf, getAckStatus, ackInfo]
  · cases hf : lookupRecipient clients data.recipient <;>
      simp [handle_send_emoji, hf, getAckStatus, ackInfo]

/-- C4 witness: the amended statement at the unregistered socket 7 and
the empty registry. -/
theorem C4_witness :
    (handle_send_emoji 7 [] true 5 emptyStore d0).1.messages
      = emptyStore.messages ++
        [{ id := emptyStore.nextId, sender := d0.sender, recipient := d0.recipient,
           emoji := d0.emoji, text := d0.text, timestamp := 5 }]
    ∧ (getAckStatus (handle_send_emoji 7 [] true 5 emptyStore d0).2
          = some "delivered"
        ∨ getAckStatus (handle_send_emoji 7 [] true 5 emptyStore d0).2
          = some "recipient_offline")
    ∧ getAckStatus (handle_send_emoji 7 [] true 5 emptyStore d0).2
      ≠ some "unregistered" :=
  C4_unregistered_send_processed 7 [] emptyStore 5 d0 (by decide)

theorem find?_congr_pred {α : Type} (p q : α → Bool) (l : List α)
    (h : ∀ a, p a = q a) : l.find? p = l.find? q := by
  induction l with
  | nil => rfl
  | cons a l ih =>
      cases hq : q a with
      | true =>
          rw [List.find?_cons_of_pos l ((h a).trans hq),
            List.find?_cons_of_pos l hq]
      | false =>
          rw [List.find?_cons_of_neg l (by simp [h a, hq]),
            List.find?_cons_of_neg l (by simp [hq]), ih]

/-- Claim C6: a send_emoji whose store write succeeds appends exactly
one Message row — the committed row with the autoincrement id — and
this is the same whether the delivery outcome is delivered or
recipient_offline, since the store result does not depend on the
registry. -/
theorem C6_one_row_per_successful_send (sid : Sid) (clients : Registry)
    (store : Store) (now : Nat) (data : SendData) :
    (handle_send_emoji sid clients true now store data).1.messages
      = store.messages ++
        [{ id := store.nextId, sender := data.sender, recipient := data.recipient,
           emoji := data.emoji, text := data.text, timestamp := now }]
    ∧ (handle_send_emoji sid clients true now store data).1.messages.length
      = store.messages.length + 1 := by
  constructor
  · cases hf : lookupRecipient clients data.recipient <;>
      simp [handle_send_emoji, hf, persistMessage]
  · cases hf : lookupRecipient clients data.recipient <;>
      simp [handle_send_emoji, hf, persistMessage]

/-- Claim C7: when the recipient resolves to a live socket id, the
emitted events are exactly one `receive_emoji` to that socket and one
`emoji_sent` acknowledgment with status delivered to the sender, and
both carry the same message id (the persistence step's id). -/
theorem C7_delivered_exact_events (sid : Sid) (clients : Registry) (store : Store)
    (dbOk : Bool) (now : Nat) (data : SendData) (rsid : Sid)
    (h : lookupRecipient clients data.recipient = some rsid) :
    (handle_send_emoji sid clients dbOk now store data).2
      = [Event.receive_emoji rsid data.sender data.recipient data.emoji data.text
          (persistMessage store dbOk now data).2,
         Event.emoji_sent sid "delivered" data.recipient
          (persistMessage store dbOk now data).2] := by
  simp [handle_send_emoji, h]

/-- C7 witness: "miami" live on socket 1 receives the message persisted
with id 1, and the sender on socket 0 gets the delivered acknowledgment
with the same id. -/
theorem C7_witness :
    (handle_send_emoji 0 [(1, "miami")] true 5 emptyStore d0).2
      = [Event.receive_emoji 1 d0.sender d0.recipient d0.emoji d0.text
          (persistMessage emptyStore true 5 d0).2,
         Event.emoji_sent 0 "delivered" d0.recipient
          (persistMessage emptyStore true 5 d0).2] :=
  C7_delivered_exact_events 0 [(1, "miami")] emptyStore true 5 d0 1 rfl

theorem deviceLastSeen_touch_device (store : Store) (name : DeviceName) (now : Nat) :
    deviceLastSeen (touch_device store name now) name = some now := by
  unfold touch_device deviceLastSeen
  by_cases h : store.devices.any (fun d => d.name == name) = true
  · rw [if_pos h]
    dsimp only
    rw [List.find?_map]
    have hpred : ∀ d : DeviceRow,
        ((fun d : DeviceRow => d.name == name) ∘
          (fun d : DeviceRow => if d.name == name then { d with last_seen := now } else d)) d
        = (fun d : DeviceRow => d.name == name) d := by
      intro d
      by_cases hd : (d.name == name) = true <;> simp [Function.comp, hd]
    rw [find?_congr_pred _ _ _ hpred]
    rcases List.any_eq_true.mp h with ⟨d, hd, hpd⟩
    have hsome : (store.devices.find? (fun d : DeviceRow => d.name == name)).isSome
        = true := List.find?_isSome.mpr ⟨d, hd, hpd⟩
    rcases Option.isSome_iff_exists.mp hsome with ⟨d0, hfind⟩
    rw [hfind]
    have hp0 := List.find?_some hfind
    simp [beq_iff_eq.mp hp0]
  · rw [if_neg h]
    dsimp only
    rw [List.find?_append]
    have hnone : store.devices.find? (fun d => d.name == name) = none := by
      rw [List.find?_eq_none]
      intro d hd hpd
      apply h
      rw [List.any_eq_true]
      exact ⟨d, hd, hpd⟩
    rw [hnone]
    simp [List.find?]

theorem touch_device_names (store : Store) (name : DeviceName) (now : Nat) :
    (touch_device store name now).devices.map DeviceRow.name
      = (if store.devices.any (fun d => d.name == name) then
          store.devices.map DeviceRow.name
        else store.devices.map DeviceRow.name ++ [name]) := by
  unfold touch_device
  by_cases h : store.devices.any (fun d => d.name == name) = true
  · rw [if_pos h, if_pos h]
    dsimp only
    rw [List.map_map]
    apply List.map_congr_left
    intro d _
    by_cases hd : (d.name == name) = true <;> simp [Function.comp, hd]
  · rw [if_neg h, if_neg h]
    dsimp only
    rw [List.map_append]
    rfl

/-- Claim C8: a register event upserts the Device row — when the write
succeeds the row for the name carries `last_seen = now`, created
(appended) when absent and updated in place when present, other names
untouched — and the `registered` acknowledgment is emitted to the
registering socket for every `dbOk`, so a store write failure (which
leaves the store unchanged) does not suppress it. -/
theorem C8_register_upsert_and_ack (sid : Sid) (clients : Registry) (store : Store)
    (dbOk : Bool) (now : Nat) (name : DeviceName) :
    (handle_register sid clients dbOk now store name).2.2
      = [Event.registered sid name "success"]
    ∧ deviceLastSeen (handle_register sid clients true now store name).2.1 name
      = some now
    ∧ (handle_register sid clients true now store name).2.1.devices.map DeviceRow.name
      = (if store.devices.any (fun d => d.name == name) then
          store.devices.map DeviceRow.name
        else store.devices.map DeviceRow.name ++ [name])
    ∧ (handle_register sid clients false now store name).2.1 = store := by
  refine ⟨rfl, ?_, ?_, rfl⟩
  · simpa [handle_register] using deviceLastSeen_touch_device store name now
  · simpa [handle_register] using touch_device_names store name now

/-- Claim C9 (implicit): when several live connections are registered
under the same device name, a send_emoji to that name is delivered to
the first matching entry in the registry's insertion order — here c1,
the earliest of the still-present registrations — and not to the most
recently registered connection c2; the disconnected c0 is skipped
because its entry was removed. -/
theorem C9_first_match_insertion_order (c0 c1 c2 sid : Sid) (store : Store)
    (dbOk : Bool) (now : Nat) (n : DeviceName) (data : SendData)
    (h01 : c0 ≠ c1) (h02 : c0 ≠ c2) (h12 : c1 ≠ c2) (hr : data.recipient = n) :
    (handle_send_emoji sid
        (applyEvents [RegEvent.register c0 n, RegEvent.register c1 n,
          RegEvent.register c2 n, RegEvent.disconnect c0]) dbOk now store data).2
      = [Event.receive_emoji c1 data.sender data.recipient data.emoji data.text
          (persistMessage store dbOk now data).2,
         Event.emoji_sent sid "delivered" data.recipient
          (persistMessage store dbOk now data).2] := by
  subst hr
  have b01 : (c0 == c1) = false := by simpa using h01
  have b02 : (c0 == c2) = false := by simpa using h02
  have b12 : (c1 == c2) = false := by simpa using h12
  have b10 : (c1 == c0) = false := by simpa using Ne.symm h01
  have b20 : (c2 == c0) = false := by simpa using Ne.symm h02
  have hreg : applyEvents [RegEvent.register c0 data.recipient,
      RegEvent.register c1 data.recipient, RegEvent.register c2 data.recipient,
      RegEvent.disconnect c0]
      = [(c1, data.recipient), (c2, data.recipient)] := by
    simp [applyEvents, applyEvent, dictInsert, handle_disconnect,
      b01, b02, b12, b10, b20, List.filter]
  have hf : lookupRecipient [(c1, data.recipient), (c2, data.recipient)]
      data.recipient = some c1 := by
    simp [lookupRecipient, List.find?]
  rw [hreg]
  simp [handle_send_emoji, hf]

/-- C9 witness: sockets 0, 1 and 2 all register "A", socket 0
disconnects; a send addressed to "A" goes to socket 1. -/
theorem C9_witness :
    (handle_send_emoji 9
        (applyEvents [RegEvent.register 0 "A", RegEvent.register 1 "A",
          RegEvent.register 2 "A", RegEvent.disconnect 0]) true 5 emptyStore dA).2
      = [Event.receive_emoji 1 dA.sender dA.recipient dA.emoji dA.text
          (persistMessage emptyStore true 5 dA).2,
         Event.emoji_sent 9 "delivered" dA.recipient
          (persistMessage emptyStore true 5 dA).2] :=
  C9_first_match_insertion_order 0 1 2 9 emptyStore true 5 "A" dA
    (by decide) (by decide) (by decide) rfl
